import Mathlib

/-!
Shallow embedding of the handle registry and context-binding state machine of
`src/anbox/graphics/emugl/Renderer.cpp`.

The three `std::map` registry tables (`m_colorbuffers`, `m_contexts`,
`m_windows`) are modelled as association lists keyed by handles, the
per-thread `RenderThreadInfo` TLS record as an explicit value threaded through
each operation, and every EGL backend call as an explicit success oracle of
type `Bool` (success installs the requested binding, failure leaves backend
state untouched, exactly as `eglMakeCurrent` does).
-/

namespace RendererSpec

/-! ### Data model and operations, embedded from the source -/










/-- HandleType is `uint32_t` in the source; arithmetic that can overflow is
taken modulo `handleMod`. -/
abbrev HandleType := Nat

/-- Modulus for 32-bit handle-counter arithmetic. -/
def handleMod : Nat := 2 ^ 32

/-- Entry of `m_colorbuffers`: the backend color-buffer object (opaque id for
the `ColorBufferPtr`) together with its reference count, mirroring the
`ColorBufferRef` struct with fields `cb` and `refcount`. -/
structure ColorBufferRef where
  cb : Nat
  refcount : Nat
deriving DecidableEq

/-- Per-thread TLS record `RenderThreadInfo`: ownership sets of created
context/surface handles plus the current binding record.  The source stores
`currContext` / `currDrawSurf` / `currReadSurf` as object pointers; each live
object is reached through exactly one handle, so they are modelled by the
handle that resolved to the pointer (`none` = NULL). -/
structure RenderThreadInfo where
  m_contextSet : List HandleType := []
  m_windowSet : List HandleType := []
  currContext : Option HandleType := none
  currDrawSurf : Option HandleType := none
  currReadSurf : Option HandleType := none
deriving DecidableEq

/-- Backend EGL current-binding state: which context / draw surface / read
surface are current (0 = `EGL_NO_CONTEXT` / `EGL_NO_SURFACE`). -/
structure EglState where
  curContext : Nat := 0
  curDraw : Nat := 0
  curRead : Nat := 0
deriving DecidableEq

/-- State of the `Renderer` singleton: the three registry tables, the static
handle counter `s_nextHandle`, the config list, the pbuffer context/surface
used by `bind_locked`, and the prior-binding snapshot fields. -/
structure Renderer where
  m_colorbuffers : List (HandleType × ColorBufferRef) := []
  m_contexts : List (HandleType × Nat) := []
  m_windows : List (HandleType × (Nat × HandleType)) := []
  s_nextHandle : HandleType := 0
  m_configs : List Nat := []
  m_pbufContext : Nat := 0
  m_pbufSurface : Nat := 0
  m_prevContext : Nat := 0
  m_prevReadSurf : Nat := 0
  m_prevDrawSurf : Nat := 0
deriving DecidableEq

/-- Lookup in a handle-keyed table (`std::map::find`). -/
def tblLookup {α : Type} (m : List (HandleType × α)) (h : HandleType) : Option α :=
  match m with
  | [] => none
  | (k, v) :: t => if h = k then some v else tblLookup t h

/-- Erase a key from a table (`std::map::erase(key)`). -/
def tblErase {α : Type} (m : List (HandleType × α)) (h : HandleType) :
    List (HandleType × α) :=
  match m with
  | [] => []
  | (k, v) :: t => if k = h then tblErase t h else (k, v) :: tblErase t h

/-- Insert or overwrite a key (`std::map::operator[] = v`). -/
def tblInsert {α : Type} (m : List (HandleType × α)) (h : HandleType) (v : α) :
    List (HandleType × α) :=
  (h, v) :: tblErase m h

/-- Update the value stored at a key in place (no effect if absent). -/
def tblUpdate {α : Type} (m : List (HandleType × α)) (h : HandleType) (f : α → α) :
    List (HandleType × α) :=
  match m with
  | [] => []
  | (k, v) :: t => if k = h then (k, f v) :: tblUpdate t h f else (k, v) :: tblUpdate t h f

/-- Insert into an ownership set (`std::set::insert`). -/
def setInsert (s : List HandleType) (x : HandleType) : List HandleType :=
  if x ∈ s then s else x :: s

/-- Erase from an ownership set (`std::set::erase(key)`). -/
def setErase (s : List HandleType) (x : HandleType) : List HandleType :=
  match s with
  | [] => []
  | y :: t => if y = x then setErase t x else y :: setErase t x

/-- Exit condition of the `do/while` loop in `genHandle`: the loop keeps
searching while the candidate is 0 or collides with a live context or surface
handle.  The pixel-buffer table is not consulted by the source. -/
def goodHandle (ctxs : List (HandleType × Nat))
    (wins : List (HandleType × (Nat × HandleType))) (v : HandleType) : Prop :=
  v ≠ 0 ∧ tblLookup ctxs v = none ∧ tblLookup wins v = none

instance (ctxs : List (HandleType × Nat)) (wins : List (HandleType × (Nat × HandleType)))
    (v : HandleType) : Decidable (goodHandle ctxs wins v) := by
  unfold goodHandle
  exact inferInstance

/-- Fuelled model of the unbounded `do { id = ++s_nextHandle; } while (...)`
loop of `genHandle`; `handleMod` rounds of fuel visit every 32-bit value once,
so fuel can only run out when every single handle is taken. -/
def genHandleAux (ctxs : List (HandleType × Nat))
    (wins : List (HandleType × (Nat × HandleType))) : Nat → Nat → Nat
  | 0, cur => cur
  | fuel + 1, cur =>
    let id := (cur + 1) % handleMod
    if goodHandle ctxs wins id then id else genHandleAux ctxs wins fuel id

/-- Renderer::genHandle: returns the allocated handle; the static counter
`s_nextHandle` ends at the returned value. -/
def genHandle (r : Renderer) : HandleType × Renderer :=
  let id := genHandleAux r.m_contexts r.m_windows handleMod r.s_nextHandle
  (id, { r with s_nextHandle := id })

/-- Effect on the color-buffer table of the `if (--(*cit).second.refcount == 0)
erase` pattern at handle `h`, shared verbatim between `closeColorBuffer` and
the loop body of `drainWindowSurface`; no effect when the handle is absent. -/
def cbDecTable (m : List (HandleType × ColorBufferRef)) (h : HandleType) :
    List (HandleType × ColorBufferRef) :=
  match tblLookup m h with
  | none => m
  | some e =>
    if e.refcount - 1 = 0 then tblErase m h
    else tblUpdate m h (fun e0 => { e0 with refcount := e0.refcount - 1 })

/-- Renderer::createColorBuffer.  `cbOk`/`cbObj` model the outcome of the
backend `ColorBuffer::create` call: on failure the function returns 0 and
leaves no entry; on success a fresh handle is inserted with refcount 1. -/
def createColorBuffer (r : Renderer) (cbOk : Bool) (cbObj : Nat) :
    HandleType × Renderer :=
  if cbOk then
    let res := genHandle r
    (res.1, { res.2 with m_colorbuffers := tblInsert res.2.m_colorbuffers res.1 ⟨cbObj, 1⟩ })
  else (0, r)

/-- Renderer::createRenderContext.  `getConfigs()->get(p_config)` is modelled
by indexing `m_configs`; `ctxOk`/`ctxObj` model the `RenderContext::create`
backend outcome (the GL2 flag only parameterizes that opaque object).  On
success the new handle is registered in the calling thread's
`m_contextSet`. -/
def createRenderContext (r : Renderer) (tinfo : RenderThreadInfo) (ctxOk : Bool)
    (ctxObj : Nat) (p_config : Nat) (p_share : HandleType) :
    HandleType × Renderer × RenderThreadInfo :=
  match r.m_configs.get? p_config with
  | none => (0, r, tinfo)
  | some _ =>
    if p_share ≠ 0 ∧ (tblLookup r.m_contexts p_share).isNone then (0, r, tinfo)
    else if ctxOk then
      let res := genHandle r
      (res.1, { res.2 with m_contexts := tblInsert res.2.m_contexts res.1 ctxObj },
        { tinfo with m_contextSet := setInsert tinfo.m_contextSet res.1 })
    else (0, r, tinfo)

/-- Renderer::createWindowSurface.  New surfaces carry attached-buffer handle
0 (`std::pair<WindowSurfacePtr, HandleType>(win, 0)`); the handle is
registered in the calling thread's `m_windowSet`. -/
def createWindowSurface (r : Renderer) (tinfo : RenderThreadInfo) (winOk : Bool)
    (winObj : Nat) (p_config : Nat) : HandleType × Renderer × RenderThreadInfo :=
  match r.m_configs.get? p_config with
  | none => (0, r, tinfo)
  | some _ =>
    if winOk then
      let res := genHandle r
      (res.1, { res.2 with m_windows := tblInsert res.2.m_windows res.1 (winObj, 0) },
        { tinfo with m_windowSet := setInsert tinfo.m_windowSet res.1 })
    else (0, r, tinfo)

/-- Renderer::DestroyRenderContext: erases the handle from `m_contexts` and
from the calling thread's `m_contextSet` (the source's early return on an
empty set is kept). -/
def DestroyRenderContext (r : Renderer) (tinfo : RenderThreadInfo)
    (p_context : HandleType) : Renderer × RenderThreadInfo :=
  let r1 := { r with m_contexts := tblErase r.m_contexts p_context }
  if tinfo.m_contextSet.isEmpty then (r1, tinfo)
  else (r1, { tinfo with m_contextSet := setErase tinfo.m_contextSet p_context })

/-- Renderer::DestroyWindowSurface: when the handle is present, erases it from
`m_windows` and from the calling thread's `m_windowSet`.  The attached
color buffer is not touched. -/
def DestroyWindowSurface (r : Renderer) (tinfo : RenderThreadInfo)
    (p_surface : HandleType) : Renderer × RenderThreadInfo :=
  if (tblLookup r.m_windows p_surface).isSome then
    let r1 := { r with m_windows := tblErase r.m_windows p_surface }
    if tinfo.m_windowSet.isEmpty then (r1, tinfo)
    else (r1, { tinfo with m_windowSet := setErase tinfo.m_windowSet p_surface })
  else (r, tinfo)

/-- Renderer::openColorBuffer: returns -1 on an unknown handle, otherwise
increments the refcount and returns 0. -/
def openColorBuffer (r : Renderer) (p_colorbuffer : HandleType) : Int × Renderer :=
  match tblLookup r.m_colorbuffers p_colorbuffer with
  | none => (-1, r)
  | some _ =>
    let m1 := tblUpdate r.m_colorbuffers p_colorbuffer
      (fun e => { e with refcount := e.refcount + 1 })
    (0, { r with m_colorbuffers := m1 })

/-- Renderer::closeColorBuffer: silent no-op on an unknown handle, otherwise
decrements the refcount and erases the entry at zero. -/
def closeColorBuffer (r : Renderer) (p_colorbuffer : HandleType) : Renderer :=
  { r with m_colorbuffers := cbDecTable r.m_colorbuffers p_colorbuffer }

/-- Renderer::setWindowSurfaceColorBuffer: fails on either unknown handle,
otherwise points the surface at the buffer and records the buffer handle in
the surface entry.  No refcount is adjusted. -/
def setWindowSurfaceColorBuffer (r : Renderer) (p_surface p_colorbuffer : HandleType) :
    Bool × Renderer :=
  match tblLookup r.m_windows p_surface with
  | none => (false, r)
  | some _ =>
    match tblLookup r.m_colorbuffers p_colorbuffer with
    | none => (false, r)
    | some _ =>
      let m1 := tblUpdate r.m_windows p_surface (fun w => (w.1, p_colorbuffer))
      (true, { r with m_windows := m1 })

/-- Body of the loop in `Renderer::drainWindowSurface` for one handle of the
calling thread's `m_windowSet`: if the surface is live, its attached color
buffer (when non-zero and live) is ref-decremented with erase at zero, then
the surface entry is erased. -/
def drainSurfaceStep (r : Renderer) (windowHandle : HandleType) : Renderer :=
  match tblLookup r.m_windows windowHandle with
  | none => r
  | some w =>
    let r1 :=
      if w.2 ≠ 0 then { r with m_colorbuffers := cbDecTable r.m_colorbuffers w.2 }
      else r
    { r1 with m_windows := tblErase r1.m_windows windowHandle }

/-- Renderer::drainWindowSurface: destroys every surface in the calling
thread's `m_windowSet` and clears the set. -/
def drainWindowSurface (r : Renderer) (tinfo : RenderThreadInfo) :
    Renderer × RenderThreadInfo :=
  if tinfo.m_windowSet.isEmpty then (r, tinfo)
  else (tinfo.m_windowSet.foldl drainSurfaceStep r, { tinfo with m_windowSet := [] })

/-- Renderer::drainRenderContext: erases every context in the calling thread's
`m_contextSet` from the context table and clears the set. -/
def drainRenderContext (r : Renderer) (tinfo : RenderThreadInfo) :
    Renderer × RenderThreadInfo :=
  if tinfo.m_contextSet.isEmpty then (r, tinfo)
  else
    ({ r with m_contexts := tinfo.m_contextSet.foldl tblErase r.m_contexts },
      { tinfo with m_contextSet := [] })

/-- Renderer::bindContext.  `egOk` models the `eglMakeCurrent` backend call:
on failure the operation returns false with no state change.  The
surface-level `WindowSurface::bind` calls and decoder-context wiring only
touch backend objects, not registry state.  The thread record stores the
handles whose objects were made current (`none` = NULL pointer). -/
def bindContext (r : Renderer) (tinfo : RenderThreadInfo) (egOk : Bool)
    (p_context p_drawSurface p_readSurface : HandleType) :
    Bool × Renderer × RenderThreadInfo :=
  if p_context ≠ 0 ∨ p_drawSurface ≠ 0 ∨ p_readSurface ≠ 0 then
    match tblLookup r.m_contexts p_context with
    | none => (false, r, tinfo)
    | some _ =>
      match tblLookup r.m_windows p_drawSurface with
      | none => (false, r, tinfo)
      | some _ =>
        if p_readSurface ≠ p_drawSurface ∧ (tblLookup r.m_windows p_readSurface).isNone
        then (false, r, tinfo)
        else if egOk then
          (true, r,
            { tinfo with
              currContext := some p_context
              currDrawSurf := some p_drawSurface
              currReadSurf := some p_readSurface })
        else (false, r, tinfo)
  else
    if egOk then
      (true, r,
        { tinfo with currContext := none, currDrawSurf := none, currReadSurf := none })
    else (false, r, tinfo)

/-- Model of `eglMakeCurrent`: on success the requested triple becomes
current, on failure the current binding is untouched. -/
def eglMakeCurrent (ok : Bool) (draw read ctx : Nat) (egl : EglState) :
    Bool × EglState :=
  if ok then (true, { curContext := ctx, curDraw := draw, curRead := read })
  else (false, egl)

/-- Renderer::bind_locked: captures the backend's current triple, makes the
pbuffer context/surface current, and only on success stores the captured
snapshot into the `m_prev*` fields. -/
def bind_locked (ok : Bool) (r : Renderer) (egl : EglState) :
    Bool × Renderer × EglState :=
  let prevContext := egl.curContext
  let prevReadSurf := egl.curRead
  let prevDrawSurf := egl.curDraw
  match eglMakeCurrent ok r.m_pbufSurface r.m_pbufSurface r.m_pbufContext egl with
  | (true, egl1) =>
    let r1 := { r with m_prevContext := prevContext, m_prevReadSurf := prevReadSurf,
                       m_prevDrawSurf := prevDrawSurf }
    (true, r1, egl1)
  | (false, egl1) => (false, r, egl1)

/-- Renderer::unbind_locked: rebinds the saved snapshot; only on success are
the `m_prev*` fields reset to the EGL "no object" value 0. -/
def unbind_locked (ok : Bool) (r : Renderer) (egl : EglState) :
    Bool × Renderer × EglState :=
  match eglMakeCurrent ok r.m_prevDrawSurf r.m_prevReadSurf r.m_prevContext egl with
  | (true, egl1) =>
    (true, { r with m_prevContext := 0, m_prevReadSurf := 0, m_prevDrawSurf := 0 }, egl1)
  | (false, egl1) => (false, r, egl1)

/-- ScopedBind helper state: `mFb` records whether the `mFb` pointer is still
non-NULL. -/
structure ScopedBind where
  mFb : Bool
deriving DecidableEq

/-- ScopedBind constructor: calls `bind_locked` and NULLs the pointer on
failure. -/
def scopedBindMk (ok : Bool) (r : Renderer) (egl : EglState) :
    ScopedBind × Renderer × EglState :=
  match bind_locked ok r egl with
  | (true, r1, e1) => (⟨true⟩, r1, e1)
  | (false, r1, e1) => (⟨false⟩, r1, e1)

/-- ScopedBind::release (also what the destructor runs): calls
`unbind_locked` and NULLs the pointer iff it was still set. -/
def scopedBindRelease (ok : Bool) (s : ScopedBind × Renderer × EglState) :
    ScopedBind × Renderer × EglState :=
  if s.1.mFb then
    match unbind_locked ok s.2.1 s.2.2 with
    | (_, r1, e1) => (⟨false⟩, r1, e1)
  else s

/-- Global state: the renderer singleton plus every thread's TLS
`RenderThreadInfo` record, keyed by thread id. -/
structure GState where
  renderer : Renderer := {}
  threads : List (Nat × RenderThreadInfo) := []
deriving DecidableEq

/-- RenderThreadInfo::get() for a given thread id (TLS records start out
default-initialized). -/
def getThread (g : GState) (tid : Nat) : RenderThreadInfo :=
  (tblLookup g.threads tid).getD {}

def DestroyRenderContextG (g : GState) (tid : Nat) (p_context : HandleType) : GState :=
  let res := DestroyRenderContext g.renderer (getThread g tid) p_context
  { renderer := res.1, threads := tblInsert g.threads tid res.2 }

def DestroyWindowSurfaceG (g : GState) (tid : Nat) (p_surface : HandleType) : GState :=
  let res := DestroyWindowSurface g.renderer (getThread g tid) p_surface
  { renderer := res.1, threads := tblInsert g.threads tid res.2 }

def drainRenderContextG (g : GState) (tid : Nat) : GState :=
  let res := drainRenderContext g.renderer (getThread g tid)
  { renderer := res.1, threads := tblInsert g.threads tid res.2 }

def drainWindowSurfaceG (g : GState) (tid : Nat) : GState :=
  let res := drainWindowSurface g.renderer (getThread g tid)
  { renderer := res.1, threads := tblInsert g.threads tid res.2 }

/-- Option-level effect of one `if (--refcount == 0) erase` decrement on the
entry stored at the decremented handle. -/
def cbDec (o : Option ColorBufferRef) : Option ColorBufferRef :=
  match o with
  | none => none
  | some e =>
    if e.refcount - 1 = 0 then none else some { e with refcount := e.refcount - 1 }

/-- Iterated `cbDec`. -/
def cbDecN (o : Option ColorBufferRef) : Nat → Option ColorBufferRef
  | 0 => o
  | n + 1 => cbDecN (cbDec o) n

/-- Number of surfaces among `l` whose entry in the surface table `wins` is
attached to color buffer `b`. -/
def attachCount (wins : List (HandleType × (Nat × HandleType))) (l : List HandleType)
    (b : HandleType) : Nat :=
  l.countP (fun h =>
    match tblLookup wins h with
    | some w => decide (w.2 = b)
    | none => false)

/-- `openColorBuffer` iterated n times on the same handle. -/
def openIter (r : Renderer) (p : HandleType) : Nat → Renderer
  | 0 => r
  | k + 1 => (openColorBuffer (openIter r p k) p).2

/-! ### Lemmas and claim theorems -/

/-- `closeColorBuffer` iterated k times on the same handle. -/
def closeIter (r : Renderer) (p : HandleType) : Nat → Renderer
  | 0 => r
  | k + 1 => closeColorBuffer (closeIter r p k) p

theorem tblLookup_erase {α : Type} (m : List (HandleType × α)) (h x : HandleType) :
    tblLookup (tblErase m h) x = if x = h then none else tblLookup m x := by
  induction m with
  | nil => simp [tblErase, tblLookup]
  | cons p t ih =>
    obtain ⟨k, v⟩ := p
    by_cases hk : k = h
    · subst hk
      by_cases hx : x = k
      · subst hx
        simp [tblErase, tblLookup, ih]
      · simp [tblErase, tblLookup, hx, ih]
    · by_cases hx : x = k
      · subst hx
        simp [tblErase, tblLookup, hk, ih]
      · simp [tblErase, tblLookup, hk, hx, ih]

theorem tblLookup_insert {α : Type} (m : List (HandleType × α)) (h x : HandleType) (v : α) :
    tblLookup (tblInsert m h v) x = if x = h then some v else tblLookup m x := by
  by_cases hx : x = h
  · simp [tblInsert, tblLookup, hx]
  · simp [tblInsert, tblLookup, hx, tblLookup_erase]

theorem tblLookup_update {α : Type} (m : List (HandleType × α)) (h x : HandleType)
    (f : α → α) :
    tblLookup (tblUpdate m h f) x =
      if x = h then (tblLookup m h).map f else tblLookup m x := by
  induction m with
  | nil => simp [tblUpdate, tblLookup]
  | cons p t ih =>
    obtain ⟨k, v⟩ := p
    by_cases hk : k = h
    · subst hk
      by_cases hx : x = k <;> simp [tblUpdate, tblLookup, hx, ih]
    · by_cases hx : x = k
      · subst hx
        simp [tblUpdate, tblLookup, hk, Ne.symm hk, ih]
      · simp [tblUpdate, tblLookup, hk, Ne.symm hk, hx, ih]

theorem tblErase_erase {α : Type} (m : List (HandleType × α)) (h : HandleType) :
    tblErase (tblErase m h) h = tblErase m h := by
  induction m with
  | nil => simp [tblErase]
  | cons p t ih =>
    obtain ⟨k, v⟩ := p
    by_cases hk : k = h <;> simp [tblErase, hk, ih]

theorem tblInsert_insert {α : Type} (m : List (HandleType × α)) (h : HandleType) (v w : α) :
    tblInsert (tblInsert m h v) h w = tblInsert m h w := by
  simp [tblInsert, tblErase, tblErase_erase]

theorem setErase_erase (s : List HandleType) (x : HandleType) :
    setErase (setErase s x) x = setErase s x := by
  induction s with
  | nil => simp [setErase]
  | cons y t ih =>
    by_cases hy : y = x <;> simp [setErase, hy, ih]

theorem genHandleAux_good (ctxs : List (HandleType × Nat))
    (wins : List (HandleType × (Nat × HandleType))) (fuel cur : Nat)
    (hex : ∃ k, 1 ≤ k ∧ k ≤ fuel ∧ goodHandle ctxs wins ((cur + k) % handleMod)) :
    goodHandle ctxs wins (genHandleAux ctxs wins fuel cur) := by
  induction fuel generalizing cur with
  | zero =>
    obtain ⟨k, hk1, hk2, _⟩ := hex
    omega
  | succ f ih =>
    obtain ⟨k, hk1, hk2, hg⟩ := hex
    by_cases hid : goodHandle ctxs wins ((cur + 1) % handleMod)
    · simp [genHandleAux, hid]
    · have hk1' : k ≠ 1 := by
        rintro rfl
        exact hid hg
      have hg' : goodHandle ctxs wins (((cur + 1) % handleMod + (k - 1)) % handleMod) := by
        rw [Nat.mod_add_mod]
        have harith : cur + 1 + (k - 1) = cur + k := by omega
        rw [harith]
        exact hg
      simp only [genHandleAux, if_neg hid]
      exact ih _ ⟨k - 1, by omega, by omega, hg'⟩

theorem lookup_isSome_mem_keys {α : Type} (m : List (HandleType × α)) (v : HandleType)
    (h : (tblLookup m v).isSome) : v ∈ m.map Prod.fst := by
  induction m with
  | nil => simp [tblLookup] at h
  | cons p t ih =>
    obtain ⟨k, w⟩ := p
    by_cases hv : v = k
    · simp [hv]
    · simp only [tblLookup, if_neg hv] at h
      exact List.mem_cons_of_mem _ (ih h)

theorem exists_goodHandle (ctxs : List (HandleType × Nat))
    (wins : List (HandleType × (Nat × HandleType))) (cur : Nat)
    (hcard : ctxs.length + wins.length + 1 < handleMod) :
    ∃ k, 1 ≤ k ∧ k ≤ handleMod ∧ goodHandle ctxs wins ((cur + k) % handleMod) := by
  by_contra hno
  push_neg at hno
  classical
  set B : Finset Nat :=
    insert 0 ((ctxs.map Prod.fst).toFinset ∪ (wins.map Prod.fst).toFinset) with hB
  have hmem : ∀ k ∈ Finset.Icc 1 handleMod, (cur + k) % handleMod ∈ B := by
    intro k hk
    simp only [Finset.mem_Icc] at hk
    have hbad := hno k hk.1 hk.2
    unfold goodHandle at hbad
    push_neg at hbad
    by_cases h0 : (cur + k) % handleMod = 0
    · simp [hB, h0]
    · by_cases h1 : tblLookup ctxs ((cur + k) % handleMod) = none
      · have h2 := hbad h0 h1
        have h3 : (tblLookup wins ((cur + k) % handleMod)).isSome :=
          Option.ne_none_iff_isSome.mp h2
        have h4 := lookup_isSome_mem_keys wins _ h3
        simp [hB, List.mem_toFinset, h4]
      · have h3 : (tblLookup ctxs ((cur + k) % handleMod)).isSome :=
          Option.ne_none_iff_isSome.mp h1
        have h4 := lookup_isSome_mem_keys ctxs _ h3
        simp [hB, List.mem_toFinset, h4]
  have hinj : Set.InjOn (fun k => (cur + k) % handleMod) (Finset.Icc 1 handleMod) := by
    intro k1 hk1 k2 hk2 heq
    simp only [Finset.coe_Icc, Set.mem_Icc] at hk1 hk2
    simp only at heq
    rcases le_total k1 k2 with hle | hle
    · have hdvd : handleMod ∣ (cur + k2) - (cur + k1) :=
        (Nat.modEq_iff_dvd' (by omega)).mp heq
      have harith : (cur + k2) - (cur + k1) = k2 - k1 := by omega
      rw [harith] at hdvd
      have hz : k2 - k1 = 0 := Nat.eq_zero_of_dvd_of_lt hdvd (by omega)
      omega
    · have hdvd : handleMod ∣ (cur + k1) - (cur + k2) :=
        (Nat.modEq_iff_dvd' (by omega)).mp heq.symm
      have harith : (cur + k1) - (cur + k2) = k1 - k2 := by omega
      rw [harith] at hdvd
      have hz : k1 - k2 = 0 := Nat.eq_zero_of_dvd_of_lt hdvd (by omega)
      omega
  have hle : (Finset.Icc 1 handleMod).card ≤ B.card :=
    Finset.card_le_card_of_injOn _ hmem hinj
  have hcard1 : (Finset.Icc 1 handleMod).card = handleMod := by
    simp [Nat.card_Icc]
  have hBle : B.card ≤ 1 + (ctxs.length + wins.length) := by
    have s1 : B.card ≤ ((ctxs.map Prod.fst).toFinset ∪ (wins.map Prod.fst).toFinset).card + 1 :=
      Finset.card_insert_le _ _
    have s2 := Finset.card_union_le (ctxs.map Prod.fst).toFinset (wins.map Prod.fst).toFinset
    have s3 := List.toFinset_card_le (ctxs.map Prod.fst)
    have s4 := List.toFinset_card_le (wins.map Prod.fst)
    simp only [List.length_map] at s3 s4
    omega
  omega

/-- Allocation returns a valid handle whenever the context and surface tables
do not jointly exhaust the 32-bit handle space. -/
theorem genHandle_good (r : Renderer)
    (hcard : r.m_contexts.length + r.m_windows.length + 1 < handleMod) :
    goodHandle r.m_contexts r.m_windows (genHandle r).1 :=
  genHandleAux_good _ _ _ _ (exists_goodHandle _ _ _ hcard)

theorem genHandleAux_first (ctxs : List (HandleType × Nat))
    (wins : List (HandleType × (Nat × HandleType))) (fuel cur : Nat)
    (hgood : goodHandle ctxs wins ((cur + 1) % handleMod)) :
    genHandleAux ctxs wins (fuel + 1) cur = (cur + 1) % handleMod := by
  simp [genHandleAux, hgood]

/-- When the incremented counter is already a valid handle, no re-search takes
place: the counter value itself is returned. -/
theorem genHandle_first (r : Renderer)
    (hgood : goodHandle r.m_contexts r.m_windows ((r.s_nextHandle + 1) % handleMod)) :
    (genHandle r).1 = (r.s_nextHandle + 1) % handleMod := by
  have h : handleMod = 4294967295 + 1 := by norm_num [handleMod]
  simp only [genHandle]
  rw [h, genHandleAux_first _ _ _ _ hgood, h]

theorem cbDecTable_lookup (m : List (HandleType × ColorBufferRef)) (p x : HandleType) :
    tblLookup (cbDecTable m p) x =
      if x = p then cbDec (tblLookup m p) else tblLookup m x := by
  unfold cbDecTable cbDec
  cases hc : tblLookup m p with
  | none => by_cases hx : x = p <;> simp [hc, hx]
  | some e =>
    by_cases hz : e.refcount - 1 = 0
    · by_cases hx : x = p <;> simp [hz, hx, tblLookup_erase]
    · by_cases hx : x = p <;> simp [hz, hx, hc, tblLookup_update]

theorem openColorBuffer_lookup (r : Renderer) (p x : HandleType) :
    tblLookup (openColorBuffer r p).2.m_colorbuffers x =
      if x = p then
        (tblLookup r.m_colorbuffers p).map (fun e => { e with refcount := e.refcount + 1 })
      else tblLookup r.m_colorbuffers x := by
  unfold openColorBuffer
  cases hc : tblLookup r.m_colorbuffers p with
  | none => by_cases hx : x = p <;> simp [hc, hx]
  | some e => by_cases hx : x = p <;> simp [hc, hx, tblLookup_update]

theorem closeColorBuffer_lookup (r : Renderer) (p x : HandleType) :
    tblLookup (closeColorBuffer r p).m_colorbuffers x =
      if x = p then cbDec (tblLookup r.m_colorbuffers p)
      else tblLookup r.m_colorbuffers x := by
  unfold closeColorBuffer
  exact cbDecTable_lookup _ _ _

theorem cbDec_cbDecN (o : Option ColorBufferRef) (n : Nat) :
    cbDec (cbDecN o n) = cbDecN (cbDec o) n := by
  induction n generalizing o with
  | zero => rfl
  | succ k ih => simp [cbDecN, ih]

theorem cbDecN_succ (o : Option ColorBufferRef) (n : Nat) :
    cbDecN o (n + 1) = cbDec (cbDecN o n) := by
  rw [show cbDecN o (n + 1) = cbDecN (cbDec o) n from rfl, ← cbDec_cbDecN]

theorem cbDecN_none_start (n : Nat) : cbDecN none n = none := by
  induction n with
  | zero => rfl
  | succ k ih => simpa [cbDecN, cbDec] using ih

theorem cbDecN_some (cb rc n : Nat) (h : n < rc) :
    cbDecN (some ⟨cb, rc⟩) n = some ⟨cb, rc - n⟩ := by
  induction n generalizing rc with
  | zero => simp [cbDecN]
  | succ k ih =>
    have h1 : ¬ rc - 1 = 0 := by omega
    have h2 : rc - 1 - k = rc - (k + 1) := by omega
    rw [show cbDecN (some ⟨cb, rc⟩) (k + 1) = cbDecN (cbDec (some ⟨cb, rc⟩)) k from rfl]
    simp only [cbDec, if_neg h1]
    rw [ih (rc - 1) (by omega)] at *
    simp [h2]

theorem cbDecN_erased (cb rc n : Nat) (h1 : 1 ≤ rc) (h : rc ≤ n) :
    cbDecN (some ⟨cb, rc⟩) n = none := by
  induction n generalizing rc with
  | zero => omega
  | succ k ih =>
    rw [show cbDecN (some ⟨cb, rc⟩) (k + 1) = cbDecN (cbDec (some ⟨cb, rc⟩)) k from rfl]
    by_cases hz : rc - 1 = 0
    · simp only [cbDec, if_pos hz]
      exact cbDecN_none_start k
    · simp only [cbDec, if_neg hz]
      exact ih (rc - 1) (by omega) (by omega)

theorem openIter_lookup (r : Renderer) (p : HandleType) (n cb rc : Nat)
    (h : tblLookup r.m_colorbuffers p = some ⟨cb, rc⟩) :
    tblLookup (openIter r p n).m_colorbuffers p = some ⟨cb, rc + n⟩ := by
  induction n with
  | zero => simpa [openIter] using h
  | succ k ih =>
    have harith : rc + k + 1 = rc + (k + 1) := by omega
    simp [openIter, openColorBuffer_lookup, ih, harith]

theorem closeIter_lookup (r : Renderer) (p : HandleType) (k : Nat) :
    tblLookup (closeIter r p k).m_colorbuffers p =
      cbDecN (tblLookup r.m_colorbuffers p) k := by
  induction k with
  | zero => rfl
  | succ n ih => simp [closeIter, closeColorBuffer_lookup, ih, cbDecN_succ]

theorem drainSurfaceStep_contexts (r : Renderer) (h : HandleType) :
    (drainSurfaceStep r h).m_contexts = r.m_contexts := by
  unfold drainSurfaceStep
  cases tblLookup r.m_windows h with
  | none => rfl
  | some w => by_cases h2 : w.2 ≠ 0 <;> simp [h2]

theorem drainSurfaceStep_windows (r : Renderer) (h x : HandleType) :
    tblLookup (drainSurfaceStep r h).m_windows x =
      if x = h then none else tblLookup r.m_windows x := by
  unfold drainSurfaceStep
  cases hw : tblLookup r.m_windows h with
  | none =>
    by_cases hx : x = h <;> simp [hx, hw]
  | some w =>
    by_cases h2 : w.2 ≠ 0 <;> simp [h2, tblLookup_erase]

theorem drainSurfaceStep_cb (r : Renderer) (h b : HandleType) (hb : b ≠ 0) :
    tblLookup (drainSurfaceStep r h).m_colorbuffers b =
      match tblLookup r.m_windows h with
      | some w =>
        if w.2 = b then cbDec (tblLookup r.m_colorbuffers b)
        else tblLookup r.m_colorbuffers b
      | none => tblLookup r.m_colorbuffers b := by
  unfold drainSurfaceStep
  cases hw : tblLookup r.m_windows h with
  | none => simp
  | some w =>
    by_cases hwb : w.2 = b
    · subst hwb
      simp [hb, cbDecTable_lookup]
    · by_cases h2 : w.2 ≠ 0 <;> simp [h2, cbDecTable_lookup, Ne.symm hwb, hwb]

theorem drainFold_contexts (l : List HandleType) (r : Renderer) :
    (l.foldl drainSurfaceStep r).m_contexts = r.m_contexts := by
  induction l generalizing r with
  | nil => rfl
  | cons a t ih => simp [List.foldl_cons, ih, drainSurfaceStep_contexts]

theorem drainFold_windows (l : List HandleType) (r : Renderer) (x : HandleType) :
    tblLookup (l.foldl drainSurfaceStep r).m_windows x =
      if x ∈ l then none else tblLookup r.m_windows x := by
  induction l generalizing r with
  | nil => simp
  | cons a t ih =>
    simp only [List.foldl_cons]
    rw [ih]
    by_cases hx : x ∈ t
    · simp [hx]
    · by_cases hxa : x = a <;>
        simp [hx, hxa, drainSurfaceStep_windows, List.mem_cons]

theorem attachCount_congr (w1 w2 : List (HandleType × (Nat × HandleType)))
    (l : List HandleType) (b : HandleType)
    (h : ∀ x ∈ l, tblLookup w1 x = tblLookup w2 x) :
    attachCount w1 l b = attachCount w2 l b := by
  induction l with
  | nil => rfl
  | cons a t ih =>
    unfold attachCount at ih ⊢
    rw [List.countP_cons, List.countP_cons,
      ih (fun x hx => h x (List.mem_cons_of_mem _ hx)),
      h a (List.mem_cons_self _ _)]

theorem drainFold_cb (l : List HandleType) (hnd : l.Nodup) (r : Renderer)
    (b : HandleType) (hb : b ≠ 0) :
    tblLookup (l.foldl drainSurfaceStep r).m_colorbuffers b =
      cbDecN (tblLookup r.m_colorbuffers b) (attachCount r.m_windows l b) := by
  induction l generalizing r with
  | nil => simp [attachCount, cbDecN]
  | cons a t ih =>
    have hnd' : t.Nodup := (List.nodup_cons.mp hnd).2
    have ha : a ∉ t := (List.nodup_cons.mp hnd).1
    simp only [List.foldl_cons]
    rw [ih hnd']
    have hcnt : attachCount (drainSurfaceStep r a).m_windows t b
        = attachCount r.m_windows t b := by
      apply attachCount_congr
      intro x hx
      rw [drainSurfaceStep_windows]
      have hxa : ¬ x = a := fun hc => ha (hc ▸ hx)
      simp [hxa]
    rw [hcnt, drainSurfaceStep_cb r a b hb]
    cases hw : tblLookup r.m_windows a with
    | none =>
      have hc : attachCount r.m_windows (a :: t) b = attachCount r.m_windows t b := by
        unfold attachCount
        rw [List.countP_cons]
        simp [hw]
      rw [hc]
    | some w =>
      by_cases hwb : w.2 = b
      · have hc : attachCount r.m_windows (a :: t) b
            = attachCount r.m_windows t b + 1 := by
          unfold attachCount
          rw [List.countP_cons]
          simp [hw, hwb]
        rw [hc]
        simp [hwb, cbDecN]
      · have hc : attachCount r.m_windows (a :: t) b = attachCount r.m_windows t b := by
          unfold attachCount
          rw [List.countP_cons]
          simp [hw, hwb]
        rw [hc]
        simp [hwb]

theorem eraseFold_lookup {α : Type} (l : List HandleType) (m : List (HandleType × α))
    (x : HandleType) :
    tblLookup (l.foldl tblErase m) x = if x ∈ l then none else tblLookup m x := by
  induction l generalizing m with
  | nil => simp
  | cons a t ih =>
    simp only [List.foldl_cons]
    rw [ih]
    by_cases hx : x ∈ t
    · simp [hx]
    · by_cases hxa : x = a <;> simp [hx, hxa, tblLookup_erase, List.mem_cons]

/-- C4: a bind request with at least one non-zero handle, whose context, draw
surface, or (when different from draw) read surface fails to resolve, returns
failure and leaves the calling thread's recorded binding and the registry
tables unchanged, whatever the backend would have answered. -/
theorem C4_bind_lookup_failure_no_partial_effect (r : Renderer)
    (tinfo : RenderThreadInfo) (egOk : Bool)
    (p_context p_drawSurface p_readSurface : HandleType)
    (hnz : p_context ≠ 0 ∨ p_drawSurface ≠ 0 ∨ p_readSurface ≠ 0)
    (hfail : tblLookup r.m_contexts p_context = none
      ∨ tblLookup r.m_windows p_drawSurface = none
      ∨ (p_readSurface ≠ p_drawSurface ∧ tblLookup r.m_windows p_readSurface = none)) :
    bindContext r tinfo egOk p_context p_drawSurface p_readSurface = (false, r, tinfo) := by
  unfold bindContext
  rw [if_pos hnz]
  rcases hfail with h1 | h2 | h3
  · simp [h1]
  · cases hc : tblLookup r.m_contexts p_context with
    | none => simp
    | some c => simp [h2]
  · cases hc : tblLookup r.m_contexts p_context with
    | none => simp
    | some c =>
      cases hw : tblLookup r.m_windows p_drawSurface with
      | none => simp
      | some w =>
        have hr : p_readSurface ≠ p_drawSurface
            ∧ (tblLookup r.m_windows p_readSurface).isNone := by
          exact ⟨h3.1, by simp [h3.2]⟩
        simp [hr]

theorem C4_witness :
    bindContext { m_contexts := [(5, 1)] } {} true 5 6 6 = (false, { m_contexts := [(5, 1)] }, {}) :=
  C4_bind_lookup_failure_no_partial_effect { m_contexts := [(5, 1)] } {} true 5 6 6
    (Or.inl (by decide)) (Or.inr (Or.inl (by decide)))

/-- C7: bind(0,0,0) is the unbind request: its success is exactly the
backend call's success (no handle lookup can fail it), and on backend success
the calling thread's current-binding record is fully cleared while the
registry tables stay untouched. -/
theorem C7_unbind_clears_binding (r : Renderer) (tinfo : RenderThreadInfo) (egOk : Bool) :
    (bindContext r tinfo egOk 0 0 0).1 = egOk
    ∧ bindContext r tinfo true 0 0 0
      = (true, r, { tinfo with currContext := none, currDrawSurf := none, currReadSurf := none }) := by
  constructor
  · cases egOk <;> simp [bindContext]
  · simp [bindContext]

/-- C9: replacing a surface's attached buffer overwrites the recorded handle
with the new buffer and leaves the whole pixel-buffer table — in particular
the replaced buffer's entry and refcount — unchanged. -/
theorem C9_attach_replaces_without_refcount (r : Renderer)
    (p_surface p_colorbuffer : HandleType) (wobj : Nat) (bOld : HandleType)
    (c : ColorBufferRef)
    (hw : tblLookup r.m_windows p_surface = some (wobj, bOld))
    (hc : tblLookup r.m_colorbuffers p_colorbuffer = some c) :
    (setWindowSurfaceColorBuffer r p_surface p_colorbuffer).1 = true
    ∧ (setWindowSurfaceColorBuffer r p_surface p_colorbuffer).2.m_colorbuffers
      = r.m_colorbuffers
    ∧ tblLookup (setWindowSurfaceColorBuffer r p_surface p_colorbuffer).2.m_windows p_surface
      = some (wobj, p_colorbuffer) := by
  unfold setWindowSurfaceColorBuffer
  rw [hw, hc]
  refine ⟨rfl, rfl, ?_⟩
  simp [tblLookup_update, hw]

theorem C9_witness :
    (setWindowSurfaceColorBuffer { m_colorbuffers := [(2, ⟨9, 3⟩), (3, ⟨8, 1⟩)], m_windows := [(4, (7, 2))] } 4 3).1 = true
    ∧ (setWindowSurfaceColorBuffer { m_colorbuffers := [(2, ⟨9, 3⟩), (3, ⟨8, 1⟩)], m_windows := [(4, (7, 2))] } 4 3).2.m_colorbuffers
      = [(2, ⟨9, 3⟩), (3, ⟨8, 1⟩)]
    ∧ tblLookup (setWindowSurfaceColorBuffer { m_colorbuffers := [(2, ⟨9, 3⟩), (3, ⟨8, 1⟩)], m_windows := [(4, (7, 2))] } 4 3).2.m_windows 4
      = some (7, 3) :=
  C9_attach_replaces_without_refcount
    { m_colorbuffers := [(2, ⟨9, 3⟩), (3, ⟨8, 1⟩)], m_windows := [(4, (7, 2))] }
    4 3 7 2 ⟨8, 1⟩ (by decide) (by decide)

/-- C10: an unknown config id makes createRenderContext and
createWindowSurface return 0 with no registry or thread-set change, whatever
the backend would have answered: the failure happens before any backend
object creation is attempted. -/
theorem C10_bad_config_no_effect (r : Renderer) (tinfo : RenderThreadInfo)
    (ok : Bool) (obj p_config : Nat) (p_share : HandleType)
    (hcfg : r.m_configs.get? p_config = none) :
    createRenderContext r tinfo ok obj p_config p_share = (0, r, tinfo)
    ∧ createWindowSurface r tinfo ok obj p_config = (0, r, tinfo) := by
  unfold createRenderContext createWindowSurface
  rw [hcfg]
  exact ⟨rfl, rfl⟩

theorem C10_witness :
    createRenderContext { m_contexts := [(1, 9)] } { m_contextSet := [1] } true 7 0 0 = (0, { m_contexts := [(1, 9)] }, { m_contextSet := [1] })
    ∧ createWindowSurface { m_contexts := [(1, 9)] } { m_contextSet := [1] } true 7 0 = (0, { m_contexts := [(1, 9)] }, { m_contextSet := [1] }) :=
  C10_bad_config_no_effect { m_contexts := [(1, 9)] } { m_contextSet := [1] } true 7 0 0 (by decide)

/-- C8: a failed internal bind records that nothing was acquired, making
release a safe no-op; a successful scope's first release restores the
captured backend snapshot and resets the prev fields; and release is
idempotent on every scope state — later releases (destructor included) have
no effect. -/
theorem C8_scoped_bind_release (r : Renderer) (egl : EglState) (ok1 ok2 : Bool)
    (s : ScopedBind × Renderer × EglState) :
    scopedBindMk false r egl = (⟨false⟩, r, egl)
    ∧ scopedBindRelease ok1 (⟨false⟩, r, egl) = (⟨false⟩, r, egl)
    ∧ (scopedBindMk true r egl).1.mFb = true
    ∧ scopedBindRelease true (scopedBindMk true r egl)
      = (⟨false⟩, { r with m_prevContext := 0, m_prevReadSurf := 0, m_prevDrawSurf := 0 }, egl)
    ∧ scopedBindRelease ok2 (scopedBindRelease ok1 s) = scopedBindRelease ok1 s := by
  refine ⟨?_, ?_, ?_, ?_, ?_⟩
  · simp [scopedBindMk, bind_locked, eglMakeCurrent]
  · simp [scopedBindRelease]
  · simp [scopedBindMk, bind_locked, eglMakeCurrent]
  · simp [scopedBindMk, scopedBindRelease, bind_locked, unbind_locked, eglMakeCurrent]
  · obtain ⟨⟨mfb⟩, r0, e0⟩ := s
    cases mfb
    · simp [scopedBindRelease]
    · cases ok1 <;> simp [scopedBindRelease, unbind_locked, eglMakeCurrent]

/-- C5: on a live buffer, open immediately followed by close restores the
entry exactly; starting from refcount 1 (creation) followed by N opens, the
k-th close (k ≤ N) leaves the entry live with refcount N+1-k, and the
(N+1)-th close erases it — precisely then and not before. -/
theorem C5_open_close_refcount (r : Renderer) (H : HandleType) (e : ColorBufferRef)
    (N k : Nat) (h1 : tblLookup r.m_colorbuffers H = some e) (h2 : 1 ≤ e.refcount)
    (hk : k ≤ N) :
    tblLookup (closeColorBuffer (openColorBuffer r H).2 H).m_colorbuffers H = some e
    ∧ (e.refcount = 1 →
        tblLookup (closeIter (openIter r H N) H k).m_colorbuffers H = some ⟨e.cb, N + 1 - k⟩
        ∧ tblLookup (closeIter (openIter r H N) H (N + 1)).m_colorbuffers H = none) := by
  obtain ⟨cb, rc⟩ := e
  simp only at h2 ⊢
  constructor
  · rw [closeColorBuffer_lookup, if_pos rfl, openColorBuffer_lookup, if_pos rfl, h1]
    simp [cbDec]
    omega
  · intro hrc1
    have hrc : rc = 1 := hrc1
    subst hrc
    have hopen := openIter_lookup r H N cb 1 h1
    constructor
    · rw [closeIter_lookup, hopen, cbDecN_some cb (1 + N) k (by omega)]
      have harith : 1 + N - k = N + 1 - k := by omega
      rw [harith]
    · rw [closeIter_lookup, hopen]
      exact cbDecN_erased cb (1 + N) (N + 1) (by omega) (by omega)

theorem C5_witness :
    tblLookup (closeColorBuffer (openColorBuffer { m_colorbuffers := [(2, ⟨7, 1⟩)] } 2).2 2).m_colorbuffers 2 = some ⟨7, 1⟩
    ∧ tblLookup (closeIter (openIter { m_colorbuffers := [(2, ⟨7, 1⟩)] } 2 2) 2 1).m_colorbuffers 2 = some ⟨7, 2⟩
    ∧ tblLookup (closeIter (openIter { m_colorbuffers := [(2, ⟨7, 1⟩)] } 2 2) 2 3).m_colorbuffers 2 = none := by
  have h := C5_open_close_refcount { m_colorbuffers := [(2, ⟨7, 1⟩)] } 2 ⟨7, 1⟩ 2 1
    (by decide) (by decide) (by decide)
  exact ⟨h.1, (h.2 rfl).1, (h.2 rfl).2⟩

theorem DestroyRenderContext_eq (r : Renderer) (ti : RenderThreadInfo) (h : HandleType) :
    DestroyRenderContext r ti h
      = ({ r with m_contexts := tblErase r.m_contexts h },
         { ti with m_contextSet := setErase ti.m_contextSet h }) := by
  obtain ⟨cs, ws, a1, a2, a3⟩ := ti
  unfold DestroyRenderContext
  cases cs with
  | nil => simp [setErase]
  | cons y tl => simp

theorem DestroyWindowSurface_eq (r : Renderer) (ti : RenderThreadInfo) (h : HandleType) :
    DestroyWindowSurface r ti h
      = if (tblLookup r.m_windows h).isSome then
          ({ r with m_windows := tblErase r.m_windows h },
           { ti with m_windowSet := setErase ti.m_windowSet h })
        else (r, ti) := by
  obtain ⟨cs, ws, a1, a2, a3⟩ := ti
  unfold DestroyWindowSurface
  by_cases hsome : (tblLookup r.m_windows h).isSome
  · rw [if_pos hsome, if_pos hsome]
    cases ws with
    | nil => simp [setErase]
    | cons y tl => simp
  · rw [if_neg hsome, if_neg hsome]

/-- C2 counterexample: thread 1 destroys context 5, which thread 0 created
and recorded in its ownership set; the handle leaves the context table but
remains in thread 0's set, refuting removal from every thread's set that
references it. -/
theorem C2_counterexample :
    tblLookup (DestroyRenderContextG { renderer := { m_contexts := [(5, 1)] }, threads := [(0, { m_contextSet := [5] })] } 1 5).renderer.m_contexts 5 = none
    ∧ (getThread (DestroyRenderContextG { renderer := { m_contexts := [(5, 1)] }, threads := [(0, { m_contextSet := [5] })] } 1 5) 0).m_contextSet = [5] := by
  decide

/-- C2 (amended): DestroyRenderContext removes the handle from the context
table and from the calling thread's ownership set only — another thread's set
still referencing the handle is left unchanged — and DestroyWindowSurface
likewise removes the surface (when live) from the table and the calling
thread's set only; both operations are idempotent, in particular no-ops when
the handle is already absent. -/
theorem C2_destroy_calling_thread_only (g : GState) (tid : Nat)
    (hC hS : HandleType) (x t : Nat) (ht : t ≠ tid) :
    tblLookup (DestroyRenderContextG g tid hC).renderer.m_contexts x
      = (if x = hC then none else tblLookup g.renderer.m_contexts x)
    ∧ (getThread (DestroyRenderContextG g tid hC) tid).m_contextSet
      = setErase (getThread g tid).m_contextSet hC
    ∧ getThread (DestroyRenderContextG g tid hC) t = getThread g t
    ∧ DestroyRenderContextG (DestroyRenderContextG g tid hC) tid hC
      = DestroyRenderContextG g tid hC
    ∧ tblLookup (DestroyWindowSurfaceG g tid hS).renderer.m_windows x
      = (if x = hS then none else tblLookup g.renderer.m_windows x)
    ∧ (getThread (DestroyWindowSurfaceG g tid hS) tid).m_windowSet
      = (if (tblLookup g.renderer.m_windows hS).isSome
         then setErase (getThread g tid).m_windowSet hS
         else (getThread g tid).m_windowSet)
    ∧ getThread (DestroyWindowSurfaceG g tid hS) t = getThread g t
    ∧ DestroyWindowSurfaceG (DestroyWindowSurfaceG g tid hS) tid hS
      = DestroyWindowSurfaceG g tid hS := by
  refine ⟨?_, ?_, ?_, ?_, ?_, ?_, ?_, ?_⟩
  · simp [DestroyRenderContextG, DestroyRenderContext_eq, tblLookup_erase]
  · simp [DestroyRenderContextG, DestroyRenderContext_eq, getThread, tblLookup_insert]
  · simp [DestroyRenderContextG, getThread, tblLookup_insert, ht]
  · simp [DestroyRenderContextG, DestroyRenderContext_eq, getThread, tblLookup_insert,
      tblErase_erase, setErase_erase, tblInsert_insert]
  · by_cases hsome : (tblLookup g.renderer.m_windows hS).isSome
    · simp [DestroyWindowSurfaceG, DestroyWindowSurface_eq, hsome, tblLookup_erase]
    · have hnone : tblLookup g.renderer.m_windows hS = none := by
        simpa [Option.isSome_iff_ne_none] using hsome
      by_cases hxS : x = hS <;>
        simp [DestroyWindowSurfaceG, DestroyWindowSurface_eq, hsome, hxS, hnone]
  · by_cases hsome : (tblLookup g.renderer.m_windows hS).isSome <;>
      simp [DestroyWindowSurfaceG, DestroyWindowSurface_eq, hsome, getThread,
        tblLookup_insert]
  · simp [DestroyWindowSurfaceG, getThread, tblLookup_insert, ht]
  · by_cases hsome : (tblLookup g.renderer.m_windows hS).isSome
    · simp [DestroyWindowSurfaceG, DestroyWindowSurface_eq, hsome, getThread,
        tblLookup_insert, tblLookup_erase, tblErase_erase, setErase_erase,
        tblInsert_insert]
    · simp [DestroyWindowSurfaceG, DestroyWindowSurface_eq, hsome, getThread,
        tblLookup_insert, tblInsert_insert]

theorem C2_witness :
    tblLookup (DestroyRenderContextG { renderer := { m_contexts := [(5, 1)], m_windows := [(6, (2, 0))] }, threads := [(0, { m_contextSet := [5], m_windowSet := [6] })] } 1 5).renderer.m_contexts 5 = none
    ∧ (getThread (DestroyRenderContextG { renderer := { m_contexts := [(5, 1)], m_windows := [(6, (2, 0))] }, threads := [(0, { m_contextSet := [5], m_windowSet := [6] })] } 1 5) 0)
      = getThread { renderer := { m_contexts := [(5, 1)], m_windows := [(6, (2, 0))] }, threads := [(0, { m_contextSet := [5], m_windowSet := [6] })] } 0
    ∧ DestroyRenderContextG (DestroyRenderContextG { renderer := { m_contexts := [(5, 1)], m_windows := [(6, (2, 0))] }, threads := [(0, { m_contextSet := [5], m_windowSet := [6] })] } 1 5) 1 5
      = DestroyRenderContextG { renderer := { m_contexts := [(5, 1)], m_windows := [(6, (2, 0))] }, threads := [(0, { m_contextSet := [5], m_windowSet := [6] })] } 1 5
    ∧ DestroyWindowSurfaceG (DestroyWindowSurfaceG { renderer := { m_contexts := [(5, 1)], m_windows := [(6, (2, 0))] }, threads := [(0, { m_contextSet := [5], m_windowSet := [6] })] } 1 6) 1 6
      = DestroyWindowSurfaceG { renderer := { m_contexts := [(5, 1)], m_windows := [(6, (2, 0))] }, threads := [(0, { m_contextSet := [5], m_windowSet := [6] })] } 1 6 := by
  have h := C2_destroy_calling_thread_only
    { renderer := { m_contexts := [(5, 1)], m_windows := [(6, (2, 0))] },
      threads := [(0, { m_contextSet := [5], m_windowSet := [6] })] }
    1 5 6 5 0 (by decide)
  exact ⟨h.1.trans (by decide), h.2.2.1, h.2.2.2.1, h.2.2.2.2.2.2.2⟩

/-- C1 counterexample: surface 10 is attached to pixel buffer 7 whose
refcount is 1; DestroyWindowSurface removes the surface entry but leaves
buffer 7 live with refcount still 1, contradicting the claim that the
refcount is decremented once and the entry erased when it reaches zero. -/
theorem C1_counterexample :
    tblLookup (DestroyWindowSurface { m_colorbuffers := [(7, ⟨9, 1⟩)], m_windows := [(10, (3, 7))] } { m_windowSet := [10] } 10).1.m_windows 10 = none
    ∧ (DestroyWindowSurface { m_colorbuffers := [(7, ⟨9, 1⟩)], m_windows := [(10, (3, 7))] } { m_windowSet := [10] } 10).1.m_colorbuffers = [(7, ⟨9, 1⟩)] := by
  decide

/-- C1 (amended): DestroyWindowSurface removes the surface entry (touching no
other surface) and leaves the pixel-buffer table completely unchanged — no
refcount decrement, no erasure; the decrement-exactly-once with
erase-iff-zero behaviour applies on the drain path (drainWindowSurface),
shown here for a thread owning exactly that surface. -/
theorem C1_destroy_surface_keeps_buffer (r : Renderer) (tinfo ti1 : RenderThreadInfo)
    (S b : HandleType) (wobj : Nat) (e : ColorBufferRef) (x : HandleType)
    (hS : tblLookup r.m_windows S = some (wobj, b))
    (hb : b ≠ 0)
    (he : tblLookup r.m_colorbuffers b = some e)
    (hset : ti1.m_windowSet = [S])
    (hx : x ≠ S) :
    (DestroyWindowSurface r tinfo S).1.m_colorbuffers = r.m_colorbuffers
    ∧ tblLookup (DestroyWindowSurface r tinfo S).1.m_windows S = none
    ∧ tblLookup (DestroyWindowSurface r tinfo S).1.m_windows x = tblLookup r.m_windows x
    ∧ tblLookup (drainWindowSurface r ti1).1.m_colorbuffers b
      = (if e.refcount - 1 = 0 then none else some { e with refcount := e.refcount - 1 }) := by
  have hsome : (tblLookup r.m_windows S).isSome := by simp [hS]
  refine ⟨?_, ?_, ?_, ?_⟩
  · unfold DestroyWindowSurface
    rw [if_pos hsome]
    by_cases hemp : tinfo.m_windowSet.isEmpty <;> simp [hemp]
  · unfold DestroyWindowSurface
    rw [if_pos hsome]
    by_cases hemp : tinfo.m_windowSet.isEmpty <;> simp [hemp, tblLookup_erase]
  · unfold DestroyWindowSurface
    rw [if_pos hsome]
    by_cases hemp : tinfo.m_windowSet.isEmpty <;> simp [hemp, tblLookup_erase, hx]
  · unfold drainWindowSurface
    rw [hset]
    simp only [List.isEmpty_cons, Bool.false_eq_true, if_false, List.foldl_cons,
      List.foldl_nil]
    rw [drainSurfaceStep_cb r S b hb, hS]
    simp [he, cbDec]

theorem C1_witness :
    (DestroyWindowSurface { m_colorbuffers := [(7, ⟨9, 2⟩)], m_windows := [(10, (3, 7)), (11, (4, 7))] } { m_windowSet := [10, 11] } 10).1.m_colorbuffers = [(7, ⟨9, 2⟩)]
    ∧ tblLookup (DestroyWindowSurface { m_colorbuffers := [(7, ⟨9, 2⟩)], m_windows := [(10, (3, 7)), (11, (4, 7))] } { m_windowSet := [10, 11] } 10).1.m_windows 10 = none
    ∧ tblLookup (DestroyWindowSurface { m_colorbuffers := [(7, ⟨9, 2⟩)], m_windows := [(10, (3, 7)), (11, (4, 7))] } { m_windowSet := [10, 11] } 10).1.m_windows 11 = tblLookup ({ m_colorbuffers := [(7, ⟨9, 2⟩)], m_windows := [(10, (3, 7)), (11, (4, 7))] } : Renderer).m_windows 11
    ∧ tblLookup (drainWindowSurface { m_colorbuffers := [(7, ⟨9, 2⟩)], m_windows := [(10, (3, 7)), (11, (4, 7))] } { m_windowSet := [10] } ).1.m_colorbuffers 7
      = (if (⟨9, 2⟩ : ColorBufferRef).refcount - 1 = 0 then none else some { (⟨9, 2⟩ : ColorBufferRef) with refcount := (⟨9, 2⟩ : ColorBufferRef).refcount - 1 }) :=
  C1_destroy_surface_keeps_buffer
    { m_colorbuffers := [(7, ⟨9, 2⟩)], m_windows := [(10, (3, 7)), (11, (4, 7))] }
    { m_windowSet := [10, 11] } { m_windowSet := [10] } 10 7 3 ⟨9, 2⟩ 11
    (by decide) (by decide) (by decide) (by decide) (by decide)

/-- C3 counterexample: with the allocation counter one step before 32-bit
wraparound and pixel buffer 1 live (contexts and surfaces empty), genHandle
wraps, skips 0, and returns 1 — a handle currently live in the pixel-buffer
table, refuting distinctness across all three registries: the allocator only
consults the context and surface tables. -/
theorem C3_counterexample :
    (genHandle { m_colorbuffers := [(1, ⟨5, 1⟩)], s_nextHandle := handleMod - 1 }).1 = 1
    ∧ (tblLookup ({ m_colorbuffers := [(1, ⟨5, 1⟩)], s_nextHandle := handleMod - 1 } : Renderer).m_colorbuffers 1).isSome = true := by
  decide

/-- C3 (amended): every allocation returns a non-zero handle distinct from
all live context and surface handles (but the pixel-buffer table is not
consulted, so a collision with a live pixel-buffer handle is possible after
wraparound); the counter advances to the returned handle, and when the
incremented counter is itself valid it is returned directly with no
re-search. -/
theorem C3_genHandle_valid (r : Renderer)
    (hcard : r.m_contexts.length + r.m_windows.length + 1 < handleMod) :
    (genHandle r).1 ≠ 0
    ∧ tblLookup r.m_contexts (genHandle r).1 = none
    ∧ tblLookup r.m_windows (genHandle r).1 = none
    ∧ (genHandle r).2.s_nextHandle = (genHandle r).1
    ∧ (goodHandle r.m_contexts r.m_windows ((r.s_nextHandle + 1) % handleMod) →
        (genHandle r).1 = (r.s_nextHandle + 1) % handleMod) := by
  have h := genHandle_good r hcard
  exact ⟨h.1, h.2.1, h.2.2, rfl, fun hg => genHandle_first r hg⟩

theorem C3_witness :
    tblLookup ({ m_contexts := [(1, 8)], m_windows := [(2, (9, 0))], s_nextHandle := 2 } : Renderer).m_contexts (genHandle { m_contexts := [(1, 8)], m_windows := [(2, (9, 0))], s_nextHandle := 2 }).1 = none
    ∧ tblLookup ({ m_contexts := [(1, 8)], m_windows := [(2, (9, 0))], s_nextHandle := 2 } : Renderer).m_windows (genHandle { m_contexts := [(1, 8)], m_windows := [(2, (9, 0))], s_nextHandle := 2 }).1 = none
    ∧ (genHandle ({ m_contexts := [(1, 8)], m_windows := [(2, (9, 0))], s_nextHandle := 2 } : Renderer)).2.s_nextHandle
      = (genHandle ({ m_contexts := [(1, 8)], m_windows := [(2, (9, 0))], s_nextHandle := 2 } : Renderer)).1 := by
  have h := C3_genHandle_valid
    { m_contexts := [(1, 8)], m_windows := [(2, (9, 0))], s_nextHandle := 2 }
    (by norm_num [handleMod])
  exact ⟨h.2.1, h.2.2.1, h.2.2.2.1⟩

theorem drainRenderContext_eq (r : Renderer) (ti : RenderThreadInfo) :
    drainRenderContext r ti
      = ({ r with m_contexts := ti.m_contextSet.foldl tblErase r.m_contexts },
         { ti with m_contextSet := [] }) := by
  obtain ⟨cs, ws, a1, a2, a3⟩ := ti
  unfold drainRenderContext
  cases cs with
  | nil => simp
  | cons y tl => simp

theorem drainWindowSurface_eq (r : Renderer) (ti : RenderThreadInfo) :
    drainWindowSurface r ti
      = (ti.m_windowSet.foldl drainSurfaceStep r, { ti with m_windowSet := [] }) := by
  obtain ⟨cs, ws, a1, a2, a3⟩ := ti
  unfold drainWindowSurface
  cases ws with
  | nil => simp
  | cons y tl => simp

theorem drainRenderContextG_eq (g : GState) (tid : Nat) :
    drainRenderContextG g tid
      = { renderer := { g.renderer with
            m_contexts := (getThread g tid).m_contextSet.foldl tblErase g.renderer.m_contexts },
          threads := tblInsert g.threads tid { getThread g tid with m_contextSet := [] } } := by
  simp [drainRenderContextG, drainRenderContext_eq]

theorem drainWindowSurfaceG_eq (g : GState) (tid : Nat) :
    drainWindowSurfaceG g tid
      = { renderer := (getThread g tid).m_windowSet.foldl drainSurfaceStep g.renderer,
          threads := tblInsert g.threads tid { getThread g tid with m_windowSet := [] } } := by
  simp [drainWindowSurfaceG, drainWindowSurface_eq]

theorem getThread_insert_same (ts : List (Nat × RenderThreadInfo)) (r : Renderer)
    (tid : Nat) (ti : RenderThreadInfo) :
    getThread { renderer := r, threads := tblInsert ts tid ti } tid = ti := by
  simp [getThread, tblLookup_insert]

theorem getThread_insert_other (ts : List (Nat × RenderThreadInfo)) (r : Renderer)
    (tid t : Nat) (ht : t ≠ tid) (ti : RenderThreadInfo) (g : GState)
    (hts : g.threads = ts) :
    getThread { renderer := r, threads := tblInsert ts tid ti } t = getThread g t := by
  simp [getThread, tblLookup_insert, ht, hts]

/-- C6: draining removes from the tables exactly the contexts and surfaces in
the calling thread's ownership sets (each drained surface's attached buffer
is ref-decremented once, with erase at zero, counted by attachCount over the
drained set), clears the thread's sets, leaves other threads' records and all
other objects untouched, is a no-op when the thread owns nothing, and is
idempotent. -/
theorem C6_drain_exact (g : GState) (tid : Nat) (b x : HandleType) (t : Nat)
    (hnd : (getThread g tid).m_windowSet.Nodup)
    (hb : b ≠ 0) (ht : t ≠ tid) :
    tblLookup (drainRenderContextG g tid).renderer.m_contexts x
      = (if x ∈ (getThread g tid).m_contextSet then none
         else tblLookup g.renderer.m_contexts x)
    ∧ (getThread (drainRenderContextG g tid) tid).m_contextSet = []
    ∧ (drainRenderContextG g tid).renderer.m_windows = g.renderer.m_windows
    ∧ (drainRenderContextG g tid).renderer.m_colorbuffers = g.renderer.m_colorbuffers
    ∧ getThread (drainRenderContextG g tid) t = getThread g t
    ∧ ((getThread g tid).m_contextSet = [] →
        (drainRenderContextG g tid).renderer = g.renderer)
    ∧ drainRenderContextG (drainRenderContextG g tid) tid = drainRenderContextG g tid
    ∧ tblLookup (drainWindowSurfaceG g tid).renderer.m_windows x
      = (if x ∈ (getThread g tid).m_windowSet then none
         else tblLookup g.renderer.m_windows x)
    ∧ (getThread (drainWindowSurfaceG g tid) tid).m_windowSet = []
    ∧ tblLookup (drainWindowSurfaceG g tid).renderer.m_colorbuffers b
      = cbDecN (tblLookup g.renderer.m_colorbuffers b)
          (attachCount g.renderer.m_windows (getThread g tid).m_windowSet b)
    ∧ (drainWindowSurfaceG g tid).renderer.m_contexts = g.renderer.m_contexts
    ∧ getThread (drainWindowSurfaceG g tid) t = getThread g t
    ∧ ((getThread g tid).m_windowSet = [] →
        (drainWindowSurfaceG g tid).renderer = g.renderer)
    ∧ drainWindowSurfaceG (drainWindowSurfaceG g tid) tid = drainWindowSurfaceG g tid := by
  refine ⟨?_, ?_, ?_, ?_, ?_, ?_, ?_, ?_, ?_, ?_, ?_, ?_, ?_, ?_⟩
  · rw [drainRenderContextG_eq]
    exact eraseFold_lookup _ _ _
  · rw [drainRenderContextG_eq, getThread_insert_same]
  · rw [drainRenderContextG_eq]
  · rw [drainRenderContextG_eq]
  · rw [drainRenderContextG_eq]
    exact getThread_insert_other g.threads _ tid t ht _ g rfl
  · intro h0
    rw [drainRenderContextG_eq, h0]
    rfl
  · rw [drainRenderContextG_eq g tid, drainRenderContextG_eq, getThread_insert_same]
    simp [tblInsert_insert]
  · rw [drainWindowSurfaceG_eq]
    exact drainFold_windows _ _ _
  · rw [drainWindowSurfaceG_eq, getThread_insert_same]
  · rw [drainWindowSurfaceG_eq]
    exact drainFold_cb _ hnd _ _ hb
  · rw [drainWindowSurfaceG_eq]
    exact drainFold_contexts _ _
  · rw [drainWindowSurfaceG_eq]
    exact getThread_insert_other g.threads _ tid t ht _ g rfl
  · intro h0
    rw [drainWindowSurfaceG_eq, h0]
    rfl
  · rw [drainWindowSurfaceG_eq g tid, drainWindowSurfaceG_eq, getThread_insert_same]
    simp [tblInsert_insert]

theorem C6_witness :
    tblLookup (drainRenderContextG { renderer := { m_colorbuffers := [(7, ⟨30, 2⟩)], m_contexts := [(1, 10), (2, 11), (3, 12)], m_windows := [(4, (20, 7)), (5, (21, 0)), (6, (22, 7))] }, threads := [(0, { m_contextSet := [1, 2], m_windowSet := [4] }), (9, { m_contextSet := [3], m_windowSet := [5, 6] })] } 0).renderer.m_contexts 1 = none
    ∧ tblLookup (drainRenderContextG { renderer := { m_colorbuffers := [(7, ⟨30, 2⟩)], m_contexts := [(1, 10), (2, 11), (3, 12)], m_windows := [(4, (20, 7)), (5, (21, 0)), (6, (22, 7))] }, threads := [(0, { m_contextSet := [1, 2], m_windowSet := [4] }), (9, { m_contextSet := [3], m_windowSet := [5, 6] })] } 0).renderer.m_contexts 3 = tblLookup ({ m_colorbuffers := [(7, ⟨30, 2⟩)], m_contexts := [(1, 10), (2, 11), (3, 12)], m_windows := [(4, (20, 7)), (5, (21, 0)), (6, (22, 7))] } : Renderer).m_contexts 3
    ∧ getThread (drainRenderContextG { renderer := { m_colorbuffers := [(7, ⟨30, 2⟩)], m_contexts := [(1, 10), (2, 11), (3, 12)], m_windows := [(4, (20, 7)), (5, (21, 0)), (6, (22, 7))] }, threads := [(0, { m_contextSet := [1, 2], m_windowSet := [4] }), (9, { m_contextSet := [3], m_windowSet := [5, 6] })] } 0) 9 = getThread { renderer := { m_colorbuffers := [(7, ⟨30, 2⟩)], m_contexts := [(1, 10), (2, 11), (3, 12)], m_windows := [(4, (20, 7)), (5, (21, 0)), (6, (22, 7))] }, threads := [(0, { m_contextSet := [1, 2], m_windowSet := [4] }), (9, { m_contextSet := [3], m_windowSet := [5, 6] })] } 9
    ∧ tblLookup (drainWindowSurfaceG { renderer := { m_colorbuffers := [(7, ⟨30, 2⟩)], m_contexts := [(1, 10), (2, 11), (3, 12)], m_windows := [(4, (20, 7)), (5, (21, 0)), (6, (22, 7))] }, threads := [(0, { m_contextSet := [1, 2], m_windowSet := [4] }), (9, { m_contextSet := [3], m_windowSet := [5, 6] })] } 0).renderer.m_colorbuffers 7
      = cbDecN (tblLookup ({ m_colorbuffers := [(7, ⟨30, 2⟩)], m_contexts := [(1, 10), (2, 11), (3, 12)], m_windows := [(4, (20, 7)), (5, (21, 0)), (6, (22, 7))] } : Renderer).m_colorbuffers 7) (attachCount ({ m_colorbuffers := [(7, ⟨30, 2⟩)], m_contexts := [(1, 10), (2, 11), (3, 12)], m_windows := [(4, (20, 7)), (5, (21, 0)), (6, (22, 7))] } : Renderer).m_windows [4] 7)
    ∧ drainWindowSurfaceG (drainWindowSurfaceG { renderer := { m_colorbuffers := [(7, ⟨30, 2⟩)], m_contexts := [(1, 10), (2, 11), (3, 12)], m_windows := [(4, (20, 7)), (5, (21, 0)), (6, (22, 7))] }, threads := [(0, { m_contextSet := [1, 2], m_windowSet := [4] }), (9, { m_contextSet := [3], m_windowSet := [5, 6] })] } 0) 0
      = drainWindowSurfaceG { renderer := { m_colorbuffers := [(7, ⟨30, 2⟩)], m_contexts := [(1, 10), (2, 11), (3, 12)], m_windows := [(4, (20, 7)), (5, (21, 0)), (6, (22, 7))] }, threads := [(0, { m_contextSet := [1, 2], m_windowSet := [4] }), (9, { m_contextSet := [3], m_windowSet := [5, 6] })] } 0 := by
  have h1 := C6_drain_exact { renderer := { m_colorbuffers := [(7, ⟨30, 2⟩)], m_contexts := [(1, 10), (2, 11), (3, 12)], m_windows := [(4, (20, 7)), (5, (21, 0)), (6, (22, 7))] }, threads := [(0, { m_contextSet := [1, 2], m_windowSet := [4] }), (9, { m_contextSet := [3], m_windowSet := [5, 6] })] } 0 7 1 9 (by decide) (by decide) (by decide)
  have h3 := C6_drain_exact { renderer := { m_colorbuffers := [(7, ⟨30, 2⟩)], m_contexts := [(1, 10), (2, 11), (3, 12)], m_windows := [(4, (20, 7)), (5, (21, 0)), (6, (22, 7))] }, threads := [(0, { m_contextSet := [1, 2], m_windowSet := [4] }), (9, { m_contextSet := [3], m_windowSet := [5, 6] })] } 0 7 3 9 (by decide) (by decide) (by decide)
  refine ⟨h1.1.trans (by decide), h3.1.trans (by decide), h1.2.2.2.2.1, ?_, ?_⟩
  · exact h1.2.2.2.2.2.2.2.2.2.1
  · exact h1.2.2.2.2.2.2.2.2.2.2.2.2.2

end RendererSpec
